import Mathlib

/-!
Shallow embedding of the Shorty URL-shortening service (main.go) and its
persistent store (sql/init.sql).  The store is modelled as a list of rows of
the `urls` table; each HTTP handler becomes a pure function from the store
(plus explicit oracles for database/randomness failures, the generated code,
the next surrogate id and the current timestamp) to an outcome carrying the
HTTP status, the response body and the resulting store.
-/

/-- A row of the `urls` table (struct `URL` in main.go / table in init.sql). -/
structure URLRow where
  id : Nat
  shortCode : String
  originalURL : String
  clicks : Nat
  createdAt : Nat
deriving DecidableEq

/-- Body of a successful shorten response (`ShortenResponse`, sans the
host-dependent `short_url` field). -/
structure ShortenBody where
  shortCode : String
  originalURL : String
deriving DecidableEq

/-- Outcome of `createShortURL`: HTTP status, optional body, resulting store. -/
structure ShortenOutcome where
  status : Nat
  body : Option ShortenBody
  store : List URLRow
deriving DecidableEq

/-- `strings.HasPrefix s p` on the (ASCII) character sequences. -/
def hasPrefixStr (s p : String) : Bool :=
  p.data.isPrefixOf s.data

/-- The scheme normalization at the top of `createShortURL`: prepend
`https://` when the input starts with neither `http://` nor `https://`. -/
def normalizeURL (url : String) : String :=
  if !(hasPrefixStr url "http://") && !(hasPrefixStr url "https://") then
    "https://" ++ url
  else
    url

/-- `SELECT short_code FROM urls WHERE original_url = $1` : first row whose
`original_url` equals the argument. -/
def lookupByURL (store : List URLRow) (u : String) : Option URLRow :=
  store.find? (fun r => r.originalURL == u)

/-- `SELECT ... FROM urls WHERE short_code = $1` : first row whose
`short_code` equals the argument. -/
def lookupByCode (store : List URLRow) (code : String) : Option URLRow :=
  store.find? (fun r => r.shortCode == code)

/-- Handler `createShortURL` (POST /api/shorten).
`req` is the parsed body (`none` = binding failure, missing `url`);
`readErr` signals an internal failure of the duplicate-lookup query (in Go,
`QueryRow(...).Scan` then returns a non-nil error, exactly as `ErrNoRows`
does); `gen` is the outcome of `generateShortCode` (`none` = randomness
failure); `insertErr` signals a failed INSERT. -/
def createShortURL (store : List URLRow) (req : Option String)
    (readErr : Bool) (gen : Option String) (insertErr : Bool)
    (nextId now : Nat) : ShortenOutcome :=
  match req with
  | none => ⟨400, none, store⟩
  | some url =>
    let originalURL := normalizeURL url
    match (if readErr then none else lookupByURL store originalURL) with
    | some row => ⟨200, some ⟨row.shortCode, originalURL⟩, store⟩
    | none =>
      match gen with
      | none => ⟨500, none, store⟩
      | some code =>
        if insertErr then ⟨500, none, store⟩
        else ⟨201, some ⟨code, originalURL⟩,
              store ++ [⟨nextId, code, originalURL, 0, now⟩]⟩

/-- Outcome of `redirectToURL`: status, optional redirect target, whether the
store was queried, resulting store (after the dispatched click update). -/
structure RedirectOutcome where
  status : Nat
  target : Option String
  didQuery : Bool
  store : List URLRow
deriving DecidableEq

/-- `strings.Contains code "."`. -/
def containsDot (s : String) : Bool :=
  s.data.contains '.'

/-- `UPDATE urls SET clicks = clicks + 1 WHERE short_code = $1`. -/
def incrementClicks (store : List URLRow) (code : String) : List URLRow :=
  store.map (fun r =>
    if r.shortCode == code then { r with clicks := r.clicks + 1 } else r)

/-- Handler `redirectToURL` (GET /:code).  The dispatched asynchronous click
update is modelled by its eventual effect on the store. -/
def redirectToURL (store : List URLRow) (code : String) : RedirectOutcome :=
  if containsDot code then ⟨404, none, false, store⟩
  else
    match lookupByCode store code with
    | none => ⟨404, none, true, store⟩
    | some row => ⟨301, some row.originalURL, true, incrementClicks store code⟩

/-- Body of a stats response (`StatsResponse`). -/
structure StatsBody where
  shortCode : String
  originalURL : String
  clicks : Nat
  createdAt : Nat
deriving DecidableEq

/-- Outcome of `getStats`: HTTP status and optional body. -/
structure StatsOutcome where
  status : Nat
  body : Option StatsBody
deriving DecidableEq

/-- Handler `getStats` (GET /api/stats/:code). -/
def getStats (store : List URLRow) (code : String) : StatsOutcome :=
  match lookupByCode store code with
  | none => ⟨404, none⟩
  | some r => ⟨200, some ⟨r.shortCode, r.originalURL, r.clicks, r.createdAt⟩⟩

/-- `ORDER BY created_at DESC` of the listing query. -/
def sortByCreatedDesc (store : List URLRow) : List URLRow :=
  List.insertionSort (fun a b => b.createdAt ≤ a.createdAt) store

/-- Handler `listURLs` (GET /api/urls): the query orders by `created_at`
descending and is capped at 100 rows (`LIMIT 100`); the scan loop skips any
row whose deserialization fails (`scanFails`) and keeps the rest. -/
def listURLs (store : List URLRow) (scanFails : URLRow → Bool) : List URLRow :=
  ((sortByCreatedDesc store).take 100).filter (fun r => !(scanFails r))

/-- The base64url alphabet used by `base64.URLEncoding`. -/
def b64URLAlphabet : List Char :=
  "ABCDEFGHIJKLMNOPQRSTUVWXYZabcdefghijklmnopqrstuvwxyz0123456789-_".data

/-- Character at index `i` of the base64url alphabet. -/
def b64Char (i : Nat) : Char :=
  b64URLAlphabet.getD i 'A'

/-- base64 encoding of one 3-byte group into 4 alphabet characters. -/
def encode3 (a b c : Nat) : List Char :=
  [b64Char (a / 4),
   b64Char (a % 4 * 16 + b / 16),
   b64Char (b % 16 * 4 + c / 64),
   b64Char (c % 64)]

/-- `generateShortCode` on six given random bytes: base64url-encode them
(6 bytes = exactly 8 characters, no padding), delete any `+`, `/`, `=`
characters (the `strings.NewReplacer` step), and truncate to 6 characters. -/
def generateShortCode (b0 b1 b2 b3 b4 b5 : Nat) : String :=
  let encoded := encode3 b0 b1 b2 ++ encode3 b3 b4 b5
  let replaced := encoded.filter (fun ch => !(ch == '+' || ch == '/' || ch == '='))
  String.mk (replaced.take 6)

/-- One incoming request of the service, with the oracles each handler
consumes. -/
inductive Req where
  | shorten (url : Option String) (readErr : Bool) (gen : Option String)
      (insertErr : Bool)
  | redirect (code : String)
  | stats (code : String)
  | listing
  | health (dbUp : Bool)

/-- Effect of one request on the store (the handlers other than shorten and
redirect never write). -/
def step (store : List URLRow) (nextId now : Nat) : Req → List URLRow
  | .shorten url rE g iE => (createShortURL store url rE g iE nextId now).store
  | .redirect code => (redirectToURL store code).store
  | .stats _ => store
  | .listing => store
  | .health _ => store

/-- C2: an input URL starting with neither `http://` nor `https://` is stored
and returned with `https://` prepended exactly once; an input already carrying
one of the two schemes is stored unchanged. -/
theorem C2_scheme_normalization (url code : String) (store : List URLRow)
    (nid now : Nat) :
    (hasPrefixStr url "http://" = false → hasPrefixStr url "https://" = false →
      normalizeURL url = "https://" ++ url) ∧
    ((hasPrefixStr url "http://" = true ∨ hasPrefixStr url "https://" = true) →
      normalizeURL url = url) ∧
    (lookupByURL store (normalizeURL url) = none →
      (createShortURL store (some url) false (some code) false nid now).store =
        store ++ [⟨nid, code, normalizeURL url, 0, now⟩] ∧
      (createShortURL store (some url) false (some code) false nid now).body =
        some ⟨code, normalizeURL url⟩) := by
  refine ⟨?_, ?_, ?_⟩
  · intro h1 h2
    simp [normalizeURL, h1, h2]
  · intro h
    rcases h with h | h <;> simp [normalizeURL, h]
  · intro h
    simp [createShortURL, h]

/-- C2 witness: at `example.com` (no scheme) the normalized URL is
`https://` + input, applied through the theorem. -/
theorem C2_scheme_normalization_witness :
    hasPrefixStr "example.com" "http://" = false ∧
    hasPrefixStr "example.com" "https://" = false ∧
    normalizeURL "example.com" = "https://" ++ "example.com" :=
  ⟨by decide, by decide,
    (C2_scheme_normalization "example.com" "abc123" [] 1 0).1 (by decide) (by decide)⟩

/-- C10: the scheme test is case-sensitive, so `HTTP://example.com` (an
uppercase scheme) fails both prefix checks and the operation stores the
double-scheme value `https://HTTP://example.com`. -/
theorem C10_case_sensitive_scheme :
    hasPrefixStr "HTTP://example.com" "HTTP://" = true ∧
    hasPrefixStr "HTTP://example.com" "http://" = false ∧
    hasPrefixStr "HTTP://example.com" "https://" = false ∧
    normalizeURL "HTTP://example.com" = "https://HTTP://example.com" ∧
    (createShortURL [] (some "HTTP://example.com") false (some "abc123") false
        1 0).store =
      [⟨1, "abc123", "https://HTTP://example.com", 0, 0⟩] := by
  refine ⟨by decide, by decide, by decide, by decide, by decide⟩

/-- C5: a path code containing a dot is answered 404 with no store query and
no store change, whatever the store holds. -/
theorem C5_dot_code_no_lookup (store : List URLRow) (code : String)
    (h : containsDot code = true) :
    redirectToURL store code = ⟨404, none, false, store⟩ := by
  simp [redirectToURL, h]

/-- C5 witness: `favicon.ico` is 404-ed without a query even though a row
with exactly that code is in the store. -/
theorem C5_dot_code_no_lookup_witness :
    containsDot "favicon.ico" = true ∧
    lookupByCode [⟨1, "favicon.ico", "https://example.com", 0, 0⟩] "favicon.ico" =
      some ⟨1, "favicon.ico", "https://example.com", 0, 0⟩ ∧
    redirectToURL [⟨1, "favicon.ico", "https://example.com", 0, 0⟩] "favicon.ico" =
      ⟨404, none, false, [⟨1, "favicon.ico", "https://example.com", 0, 0⟩]⟩ :=
  ⟨by decide, by decide,
    C5_dot_code_no_lookup [⟨1, "favicon.ico", "https://example.com", 0, 0⟩]
      "favicon.ico" (by decide)⟩

/-- C9: stats answers 404 (with no record in the body) when no row carries
the code, and 200 with the row's short code, original URL, clicks and
creation time when one does. -/
theorem C9_stats_found_or_404 (store : List URLRow) (code : String) :
    ((∀ r ∈ store, r.shortCode ≠ code) → getStats store code = ⟨404, none⟩) ∧
    (∀ r, lookupByCode store code = some r →
      getStats store code =
        ⟨200, some ⟨r.shortCode, r.originalURL, r.clicks, r.createdAt⟩⟩) := by
  constructor
  · intro h
    have hnone : lookupByCode store code = none := by
      apply List.find?_eq_none.mpr
      intro r hr
      simp [h r hr]
    simp [getStats, hnone]
  · intro r hr
    simp [getStats, hr]

/-- C9 witness: the theorem applied to an absent and to a present code. -/
theorem C9_stats_found_or_404_witness :
    getStats [] "abc123" = ⟨404, none⟩ ∧
    getStats [⟨1, "abc123", "https://example.com", 2, 5⟩] "abc123" =
      ⟨200, some ⟨"abc123", "https://example.com", 2, 5⟩⟩ :=
  ⟨(C9_stats_found_or_404 [] "abc123").1 (by intro r hr; simp at hr),
   (C9_stats_found_or_404 [⟨1, "abc123", "https://example.com", 2, 5⟩]
      "abc123").2 ⟨1, "abc123", "https://example.com", 2, 5⟩ (by decide)⟩

/-- C7 counterexample: with the matching row present but the duplicate-lookup
read failing internally, the operation answers 201 (not 500) and inserts a
second row for the same URL — it proceeds instead of reporting the error. -/
theorem C7_read_error_counterexample :
    (createShortURL [⟨1, "abc123", "https://example.com", 0, 5⟩]
        (some "https://example.com") true (some "xyzW12") false 2 9).status = 201 ∧
    (createShortURL [⟨1, "abc123", "https://example.com", 0, 5⟩]
        (some "https://example.com") true (some "xyzW12") false 2 9).store =
      [⟨1, "abc123", "https://example.com", 0, 5⟩,
       ⟨2, "xyzW12", "https://example.com", 0, 9⟩] := by
  refine ⟨by decide, by decide⟩

/-- C7 amended: a failed duplicate-lookup read is indistinguishable from "no
row": the operation proceeds to generate and insert, and a 500 is reported
only when generation (`gen = none`) or the insert itself fails. -/
theorem C7_read_error_proceeds (store : List URLRow) (url : String)
    (gen : Option String) (insertErr : Bool) (nid now : Nat) :
    (gen = none →
      createShortURL store (some url) true gen insertErr nid now =
        ⟨500, none, store⟩) ∧
    (∀ code, gen = some code → insertErr = true →
      createShortURL store (some url) true gen insertErr nid now =
        ⟨500, none, store⟩) ∧
    (∀ code, gen = some code → insertErr = false →
      createShortURL store (some url) true gen insertErr nid now =
        ⟨201, some ⟨code, normalizeURL url⟩,
          store ++ [⟨nid, code, normalizeURL url, 0, now⟩]⟩) := by
  refine ⟨?_, ?_, ?_⟩
  · intro h
    subst h
    simp [createShortURL]
  · intro code h hins
    subst h
    subst hins
    simp [createShortURL]
  · intro code h hins
    subst h
    subst hins
    simp [createShortURL]

/-- C7 amended witness: the theorem applied with a failing insert, yielding
the 500 branch concretely. -/
theorem C7_read_error_proceeds_witness :
    createShortURL [] (some "example.com") true (some "abc123") true 1 0 =
      ⟨500, none, []⟩ :=
  (C7_read_error_proceeds [] "example.com" (some "abc123") true 1 0).2.1
    "abc123" rfl rfl

/-- C3 counterexample: on the byte sequence F8 00 00 00 00 00 the generator
yields `-AAAAA`, whose first character `-` is neither a letter nor a digit,
so the claim "length ≤ 10 and every character a letter or digit" fails. -/
theorem C3_alnum_counterexample :
    ¬ ((generateShortCode 248 0 0 0 0 0).length ≤ 10 ∧
       ∀ ch ∈ (generateShortCode 248 0 0 0 0 0).data, ch.isAlphanum) := by
  decide

/-- Every character the base64url alphabet lookup can produce is a letter, a
digit, `-` or `_` (out-of-range indices give the default `A`). -/
theorem b64Char_urlsafe (i : Nat) :
    (b64Char i).isAlphanum ∨ b64Char i = '-' ∨ b64Char i = '_' := by
  by_cases h : i < 64
  · have hall : ∀ j, j < 64 →
        ((b64Char j).isAlphanum ∨ b64Char j = '-' ∨ b64Char j = '_') := by decide
    exact hall i h
  · have hlen : b64URLAlphabet.length = 64 := by decide
    have hA : b64Char i = 'A' := by
      unfold b64Char
      exact List.getD_eq_default _ _ (by omega)
    rw [hA]
    left
    decide

/-- C3 amended: a generated code always has length ≤ 10 (in fact exactly 6)
and every character belongs to the base64url alphabet: a letter, a digit,
`-` or `_`. -/
theorem C3_code_shape (b0 b1 b2 b3 b4 b5 : Nat) :
    (generateShortCode b0 b1 b2 b3 b4 b5).length ≤ 10 ∧
    ∀ ch ∈ (generateShortCode b0 b1 b2 b3 b4 b5).data,
      ch.isAlphanum ∨ ch = '-' ∨ ch = '_' := by
  constructor
  · show (List.length _) ≤ 10
    simp only [generateShortCode, List.length_take]
    omega
  · intro ch hch
    simp only [generateShortCode] at hch
    have h1 : ch ∈ (encode3 b0 b1 b2 ++ encode3 b3 b4 b5).filter
        (fun c => !(c == '+' || c == '/' || c == '=')) :=
      List.mem_of_mem_take hch
    have h2 : ch ∈ encode3 b0 b1 b2 ++ encode3 b3 b4 b5 :=
      List.mem_of_mem_filter h1
    rcases List.mem_append.mp h2 with h | h <;>
      · simp only [encode3, List.mem_cons, List.not_mem_nil, or_false] at h
        rcases h with h | h | h | h <;> (subst h; exact b64Char_urlsafe _)

/-- C3 amended witness: the theorem applied to the all-zero byte sequence. -/
theorem C3_code_shape_witness :
    (generateShortCode 0 0 0 0 0 0).length ≤ 10 ∧
    ∀ ch ∈ (generateShortCode 0 0 0 0 0 0).data,
      ch.isAlphanum ∨ ch = '-' ∨ ch = '_' :=
  C3_code_shape 0 0 0 0 0 0

/-- C1: with the store read succeeding, shorten returns the existing code
with 200 and no insertion when the normalized URL is already stored, inserts
a fresh row with 0 clicks and returns 201 otherwise, and two sequential
shortenings of the same URL return the same short code. -/
theorem C1_shorten_idempotent (store : List URLRow) (url code code2 : String)
    (nid now nid2 now2 : Nat) :
    (∀ row, lookupByURL store (normalizeURL url) = some row →
      createShortURL store (some url) false (some code) false nid now =
        ⟨200, some ⟨row.shortCode, normalizeURL url⟩, store⟩) ∧
    (lookupByURL store (normalizeURL url) = none →
      createShortURL store (some url) false (some code) false nid now =
        ⟨201, some ⟨code, normalizeURL url⟩,
          store ++ [⟨nid, code, normalizeURL url, 0, now⟩]⟩) ∧
    (∃ b1 b2,
      (createShortURL store (some url) false (some code) false nid now).body =
        some b1 ∧
      (createShortURL
          (createShortURL store (some url) false (some code) false nid now).store
          (some url) false (some code2) false nid2 now2).status = 200 ∧
      (createShortURL
          (createShortURL store (some url) false (some code) false nid now).store
          (some url) false (some code2) false nid2 now2).body = some b2 ∧
      b2.shortCode = b1.shortCode) := by
  refine ⟨?_, ?_, ?_⟩
  · intro row hrow
    simp [createShortURL, hrow]
  · intro hnone
    simp [createShortURL, hnone]
  · cases hx : lookupByURL store (normalizeURL url) with
    | some row =>
      refine ⟨⟨row.shortCode, normalizeURL url⟩, ⟨row.shortCode, normalizeURL url⟩,
        ?_, ?_, ?_, rfl⟩ <;> simp [createShortURL, hx]
    | none =>
      have hnew : lookupByURL (store ++ [⟨nid, code, normalizeURL url, 0, now⟩])
          (normalizeURL url) = some ⟨nid, code, normalizeURL url, 0, now⟩ := by
        unfold lookupByURL at hx ⊢
        rw [List.find?_append, hx]
        simp
      refine ⟨⟨code, normalizeURL url⟩, ⟨code, normalizeURL url⟩,
        ?_, ?_, ?_, rfl⟩ <;> simp [createShortURL, hx, hnew]

/-- C1 witness: shortening `example.com` against the empty store inserts and
returns the fresh code with 201. -/
theorem C1_shorten_idempotent_witness :
    createShortURL [] (some "example.com") false (some "abc123") false 1 0 =
      ⟨201, some ⟨"abc123", normalizeURL "example.com"⟩,
        [⟨1, "abc123", normalizeURL "example.com", 0, 0⟩]⟩ ∧
    normalizeURL "example.com" = "https://example.com" :=
  ⟨(C1_shorten_idempotent [] "example.com" "abc123" "xyzW12" 1 0 2 3).2.1
      (by decide),
   by decide⟩

/-- C4: for a dot-free code present in the store, the redirect answers 301
targeting the stored original URL, and the dispatched update adds exactly 1
to that code's clicks while every other row and field is unchanged. -/
theorem C4_redirect_valid (store : List URLRow) (code : String) (row : URLRow)
    (hdot : containsDot code = false)
    (hfind : lookupByCode store code = some row) :
    (redirectToURL store code).status = 301 ∧
    (redirectToURL store code).target = some row.originalURL ∧
    (redirectToURL store code).store.length = store.length ∧
    (∀ i (h : i < store.length),
      (redirectToURL store code).store[i]? =
        some (if store[i].shortCode == code
          then { store[i] with clicks := store[i].clicks + 1 }
          else store[i])) := by
  have hred : redirectToURL store code =
      ⟨301, some row.originalURL, true, incrementClicks store code⟩ := by
    simp [redirectToURL, hdot, hfind]
  refine ⟨by rw [hred], by rw [hred], ?_, ?_⟩
  · rw [hred]
    simp [incrementClicks]
  · intro i h
    rw [hred]
    simp [incrementClicks, List.getElem?_map, List.getElem?_eq_getElem h]

/-- C4 witness: redirecting through the one stored code yields 301 on its
URL and a store whose single row has one more click. -/
theorem C4_redirect_valid_witness :
    (redirectToURL [⟨1, "abc123", "https://example.com", 0, 5⟩] "abc123").status
      = 301 ∧
    (redirectToURL [⟨1, "abc123", "https://example.com", 0, 5⟩] "abc123").target
      = some "https://example.com" ∧
    (redirectToURL [⟨1, "abc123", "https://example.com", 0, 5⟩] "abc123").store
      = [⟨1, "abc123", "https://example.com", 1, 5⟩] := by
  have h := C4_redirect_valid [⟨1, "abc123", "https://example.com", 0, 5⟩]
    "abc123" ⟨1, "abc123", "https://example.com", 0, 5⟩ (by decide) (by decide)
  exact ⟨h.1, h.2.1, by decide⟩

/-- Totality of the newest-first comparison on rows. -/
instance instCreatedDescTotal :
    IsTotal URLRow (fun a b => b.createdAt ≤ a.createdAt) :=
  ⟨fun a b => Nat.le_total b.createdAt a.createdAt⟩

/-- Transitivity of the newest-first comparison on rows. -/
instance instCreatedDescTrans :
    IsTrans URLRow (fun a b => b.createdAt ≤ a.createdAt) :=
  ⟨fun _ _ _ hab hbc => Nat.le_trans hbc hab⟩

/-- C6: the listing holds at most 100 entries, is sorted newest first, and a
row among the first 100 whose deserialization succeeds is never dropped. -/
theorem C6_listing_shape (store : List URLRow) (scanFails : URLRow → Bool) :
    (listURLs store scanFails).length ≤ 100 ∧
    List.Sorted (fun a b => b.createdAt ≤ a.createdAt) (listURLs store scanFails) ∧
    (∀ r ∈ (sortByCreatedDesc store).take 100, scanFails r = false →
      r ∈ listURLs store scanFails) := by
  refine ⟨?_, ?_, ?_⟩
  · have h1 : (listURLs store scanFails).length ≤
        ((sortByCreatedDesc store).take 100).length := by
      unfold listURLs
      exact List.length_filter_le _ _
    have h2 : ((sortByCreatedDesc store).take 100).length ≤ 100 := by
      simp [List.length_take]
    omega
  · have hs : List.Sorted (fun a b => b.createdAt ≤ a.createdAt)
        (sortByCreatedDesc store) := List.sorted_insertionSort _ store
    have hsub : List.Sublist (listURLs store scanFails) (sortByCreatedDesc store) := by
      unfold listURLs
      exact List.Sublist.trans (List.filter_sublist _) (List.take_sublist _ _)
    exact List.Pairwise.sublist hsub hs
  · intro r hr hf
    unfold listURLs
    exact List.mem_filter.mpr ⟨hr, by simp [hf]⟩

/-- C6 witness: a two-row store, neither row failing to deserialize: the
listing is short and keeps the newest row. -/
theorem C6_listing_shape_witness :
    (listURLs [⟨1, "a1b2c3", "https://a.example", 0, 3⟩,
               ⟨2, "d4e5f6", "https://b.example", 0, 7⟩]
      (fun _ => false)).length ≤ 100 ∧
    (⟨2, "d4e5f6", "https://b.example", 0, 7⟩ : URLRow) ∈
      listURLs [⟨1, "a1b2c3", "https://a.example", 0, 3⟩,
                ⟨2, "d4e5f6", "https://b.example", 0, 7⟩] (fun _ => false) :=
  ⟨(C6_listing_shape _ _).1, (C6_listing_shape _ _).2.2 _ (by decide) rfl⟩

/-- Shorten either leaves the store unchanged or appends one fresh row with
0 clicks. -/
theorem createShortURL_store_shape (store : List URLRow) (req : Option String)
    (rE : Bool) (g : Option String) (iE : Bool) (nid now : Nat) :
    (createShortURL store req rE g iE nid now).store = store ∨
    ∃ code u, (createShortURL store req rE g iE nid now).store =
      store ++ [⟨nid, code, u, 0, now⟩] := by
  unfold createShortURL
  rcases req with _ | url
  · exact Or.inl rfl
  · rcases hx : (if rE then none else lookupByURL store (normalizeURL url))
      with _ | row
    · rcases g with _ | code
      · left
        simp [hx]
      · rcases iE with _ | _
        · right
          exact ⟨code, normalizeURL url, by simp [hx]⟩
        · left
          simp [hx]
    · left
      simp [hx]

/-- The identity store trivially preserves every row. -/
theorem frame_rows_refl (store : List URLRow) (i : Nat) (h : i < store.length)
    (P : Prop) :
    ∃ r', store[i]? = some r' ∧
      r'.id = store[i].id ∧ r'.shortCode = store[i].shortCode ∧
      r'.originalURL = store[i].originalURL ∧ r'.createdAt = store[i].createdAt ∧
      (r'.clicks = store[i].clicks ∨ r'.clicks = store[i].clicks + 1) ∧
      (r'.clicks ≠ store[i].clicks → P) :=
  ⟨store[i], List.getElem?_eq_getElem h, rfl, rfl, rfl, rfl, Or.inl rfl,
    fun hne => absurd rfl hne⟩

/-- C8: across every request kind, no row is ever deleted and an existing
row keeps its id, short code, original URL and creation time; its clicks stay
or grow by exactly 1, and they change only on a redirect. -/
theorem C8_only_click_mutation (store : List URLRow) (nid now : Nat) (req : Req)
    (i : Nat) (h : i < store.length) :
    store.length ≤ (step store nid now req).length ∧
    ∃ r', (step store nid now req)[i]? = some r' ∧
      r'.id = store[i].id ∧ r'.shortCode = store[i].shortCode ∧
      r'.originalURL = store[i].originalURL ∧ r'.createdAt = store[i].createdAt ∧
      (r'.clicks = store[i].clicks ∨ r'.clicks = store[i].clicks + 1) ∧
      (r'.clicks ≠ store[i].clicks → ∃ code, req = Req.redirect code) := by
  cases req with
  | shorten url rE g iE =>
    rcases createShortURL_store_shape store url rE g iE nid now with hs | ⟨c, u, hs⟩
    · constructor
      · simp only [step, hs, Nat.le_refl]
      · simp only [step, hs]
        exact frame_rows_refl store i h _
    · constructor
      · simp only [step, hs, List.length_append]
        omega
      · simp only [step, hs]
        rw [List.getElem?_append_left h]
        exact frame_rows_refl store i h _
  | redirect code =>
    by_cases hdot : containsDot code = true
    · have hs : step store nid now (Req.redirect code) = store := by
        simp [step, redirectToURL, hdot]
      rw [hs]
      exact ⟨Nat.le_refl _, frame_rows_refl store i h _⟩
    · have hdot' : containsDot code = false := by simpa using hdot
      cases hfind : lookupByCode store code with
      | none =>
        have hs : step store nid now (Req.redirect code) = store := by
          simp [step, redirectToURL, hdot', hfind]
        rw [hs]
        exact ⟨Nat.le_refl _, frame_rows_refl store i h _⟩
      | some row =>
        have hs : step store nid now (Req.redirect code) =
            incrementClicks store code := by
          simp [step, redirectToURL, hdot', hfind]
        rw [hs]
        constructor
        · simp [incrementClicks]
        · have hget : (incrementClicks store code)[i]? =
              some (if store[i].shortCode == code
                then { store[i] with clicks := store[i].clicks + 1 }
                else store[i]) := by
            simp [incrementClicks, List.getElem?_map, List.getElem?_eq_getElem h]
          refine ⟨_, hget, ?_, ?_, ?_, ?_, ?_, fun _ => ⟨code, rfl⟩⟩ <;>
            by_cases hc : (store[i].shortCode == code) = true <;> simp [hc]
  | stats c =>
    exact ⟨Nat.le_refl _, frame_rows_refl store i h _⟩
  | listing =>
    exact ⟨Nat.le_refl _, frame_rows_refl store i h _⟩
  | health up =>
    exact ⟨Nat.le_refl _, frame_rows_refl store i h _⟩

/-- C8 witness: the theorem applied to a one-row store and a redirect. -/
theorem C8_only_click_mutation_witness :
    ([⟨1, "abc123", "https://example.com", 0, 5⟩] : List URLRow).length ≤
      (step [⟨1, "abc123", "https://example.com", 0, 5⟩] 2 9
        (Req.redirect "abc123")).length :=
  (C8_only_click_mutation [⟨1, "abc123", "https://example.com", 0, 5⟩] 2 9
    (Req.redirect "abc123") 0 (by decide)).1
